import Mathlib

/-!
Shallow embedding of the session-orchestration core of `chat_bot.py`
(a desktop chat client over a local inference backend).

Part 1: the stream worker (`OllamaWorker.run`, lines 47-78).
The worker reads newline-delimited records from the response body.
Per line it: checks the `_running` flag (breaking out of the loop when
cleared by `stop()`), skips empty lines, skips lines that fail to parse
as JSON, appends `message.content` to the accumulator and emits it as a
chunk when it is a non-empty string, and breaks when the record carries
`done = true`.  After the loop — reached by exhaustion of the input OR
by either `break` — it emits `full_response(full)`.  Exceptions raised
while reading (connection failure, non-2xx status via
`raise_for_status`, timeout) jump to the handler, which emits
`error_occurred` instead; no `full_response` is emitted on that path.
-/

/-- One parsed stream record: `message` is `some mc` when the record has a
`"message"` key holding a dict, with `mc` the value of its `"content"` key
(`none` when absent); `done` is the truthiness of the record's `"done"` key. -/
structure StreamRec where
  message : Option (Option String)
  done : Bool
deriving DecidableEq, Repr

/-- One line of the response body: empty (`if not line: continue`), failing
to parse as JSON (`except: continue`; a line parsing to a non-dict value
behaves identically and is modelled the same way), or a parsed record. -/
inductive StreamLine where
  | empty : StreamLine
  | malformed : StreamLine
  | record : StreamRec → StreamLine
deriving DecidableEq, Repr

/-- Lines 65-69: the chunk a record contributes — its `message.content`
when that is a non-empty string (`if content:`), nothing otherwise. -/
def recDelta (r : StreamRec) : Option String :=
  match r.message with
  | some (some c) => if c = "" then none else some c
  | _ => none

/-- State threaded through the read loop: `full` is the accumulator
(line 51, 68), `chunks` the `response_chunk` emissions in order (line 69),
`broke` records that the loop exited via `break` (stop or done), in which
case the enclosing `with` block is left before any further read. -/
structure LoopState where
  full : String
  chunks : List String
  broke : Bool
deriving DecidableEq, Repr

/-- Whether `_running` is `False` when the loop reaches line index `i`:
`stop()` (line 44-45) is modelled by the index `k` from which the cleared
flag is observed. -/
def stopCheck (stopAt : Option Nat) (i : Nat) : Bool :=
  match stopAt with
  | none => false
  | some k => decide (k ≤ i)

/-- The read loop of `OllamaWorker.run` (lines 54-72) over the delivered
lines, starting at line index `i`. -/
def runLoop (stopAt : Option Nat) : Nat → List StreamLine → LoopState → LoopState
  | _, [], st => st
  | i, l :: rest, st =>
    if stopCheck stopAt i then { st with broke := true }
    else
      match l with
      | .empty => runLoop stopAt (i + 1) rest st
      | .malformed => runLoop stopAt (i + 1) rest st
      | .record r =>
        let st1 :=
          match recDelta r with
          | some c => { st with full := st.full ++ c, chunks := st.chunks ++ [c] }
          | none => st
        if r.done then { st1 with broke := true }
        else runLoop stopAt (i + 1) rest st1

/-- What the connection delivers: `ok lines` — the body yields `lines` and
then closes normally; `err lines` — the body yields `lines` and then the
next read raises (with `err []` covering `raise_for_status` and connection
failure before any line). -/
inductive StreamInput where
  | ok : List StreamLine → StreamInput
  | err : List StreamLine → StreamInput
deriving DecidableEq, Repr

/-- The worker's observable outcome: the ordered `response_chunk`
emissions, the `full_response` emission (if any), and whether
`error_occurred` was emitted. -/
structure RunResult where
  chunks : List String
  full_emitted : Option String
  error_emitted : Bool
deriving DecidableEq, Repr

/-- `OllamaWorker.run` (lines 47-78).  On `ok` input the loop runs to
termination and `full_response` is always emitted (line 74) — whether the
loop ended by `done`, by `stop()`, or by the body closing.  On `err` input
the exception fires only if the loop actually reads past the delivered
lines, i.e. did not `break` first; then `error_occurred` is emitted and no
`full_response` is. -/
def runWorker (stopAt : Option Nat) (inp : StreamInput) : RunResult :=
  match inp with
  | .ok lines =>
    let st := runLoop stopAt 0 lines ⟨"", [], false⟩
    ⟨st.chunks, some st.full, false⟩
  | .err lines =>
    let st := runLoop stopAt 0 lines ⟨"", [], false⟩
    if st.broke then ⟨st.chunks, some st.full, false⟩
    else ⟨st.chunks, none, true⟩

/-!
Part 2: the session store and controller (`AIAssistantApp`).  Only the
state the claims speak about is modelled: the session list with its
message logs and titles, the current-session pointer, the selected model,
the single worker slot `self.ollama_worker`, the compose box, and the
system-notification bubbles produced by `_show_system`.
-/

/-- A chat message: `{"role": ..., "content": ...}` dict (line 278). -/
structure Message where
  role : String
  content : String
deriving DecidableEq, Repr

/-- A session dict `{"id": cid, "title": ..., "messages": [...]}`
(line 239). -/
structure Session where
  sid : String
  title : String
  messages : List Message
deriving DecidableEq, Repr

/-- The app-side view of the worker slot `self.ollama_worker`: the model
it was started with, the session captured by the `on_full` closure (the
current session at send time, line 362), and its `_running` flag. -/
structure WorkerRef where
  model : String
  sessionId : String
  running : Bool
deriving DecidableEq, Repr

/-- The mutable fields of `AIAssistantApp` the claims are about. -/
structure AppState where
  chat_sessions : List Session
  current_session_id : String
  current_model : Option String
  ollama_worker : Option WorkerRef
  input_box : String
  system_notes : List String
deriving DecidableEq, Repr

/-- Update the first session whose id matches, mirroring
`next(s for s in self.chat_sessions if s["id"] == self.current_session_id)`
(`_get_session`, line 266) followed by in-place mutation of that dict.
When no session matches, `_get_session` would raise; the model leaves the
list unchanged, and theorems about that path carry an existence
hypothesis. -/
def updateFirst : List Session → String → (Session → Session) → List Session
  | [], _, _ => []
  | s :: rest, sid, f =>
    if s.sid = sid then f s :: rest else s :: updateFirst rest sid f

/-- Number of user-role messages in a log
(`sum(1 for m in session["messages"] if m["role"] == "user")`, line 279). -/
def userCount (msgs : List Message) : Nat :=
  (msgs.filter (fun m => m.role = "user")).length

/-- The title expression of line 280:
`text[:30] + ("..." if len(text) > 30 else "")`. -/
def deriveTitle (text : String) : String :=
  text.take 30 ++ (if text.length > 30 then "..." else "")

/-- The log-mutating part of `_render_message` (lines 274-281): when not
`initial`, append the message to the current session and, when the message
is the session's first user message after the append, set the title. -/
def render_message (st : AppState) (role text : String) (initial : Bool) :
    AppState :=
  if initial then st
  else
    { st with
      chat_sessions := updateFirst st.chat_sessions st.current_session_id
        (fun s =>
          let msgs := s.messages ++ [⟨role, text⟩]
          { s with
            messages := msgs
            title :=
              if role = "user" ∧ userCount msgs = 1 then deriveTitle text
              else s.title }) }

/-- `_show_system` (lines 417-429): adds a centered notification bubble;
no session log is touched. -/
def show_system (st : AppState) (msg : String) : AppState :=
  { st with system_notes := st.system_notes ++ [msg] }

/-- Python's `str.strip()` (line 355): drop leading and trailing
whitespace. -/
def pyStrip (s : String) : String :=
  ⟨((s.data.dropWhile Char.isWhitespace).reverse.dropWhile
      Char.isWhitespace).reverse⟩

/-- The outcome of a `send_message` call: the new app state, whether a new
worker was created and started (lines 388, 415), and whether an existing
worker was signalled to stop first (lines 379-385). -/
structure SendOutcome where
  state : AppState
  worker_started : Bool
  old_stop_signalled : Bool
deriving DecidableEq, Repr

/-- `send_message` (lines 354-415), the synchronous part.  Strips the
compose box; returns on empty text (line 356); shows "Select a model
first" and returns when no model is selected (line 358); otherwise
appends the user message directly (line 363), calls
`_render_message("user", ...)` — which appends it AGAIN and runs the
title check (lines 276-281) — clears the compose box, stops and drops any
existing worker, then creates and starts a new worker for the current
session. -/
def send_message (st : AppState) : SendOutcome :=
  let user_text := pyStrip st.input_box
  if user_text = "" then ⟨st, false, false⟩
  else
    match st.current_model with
    | none => ⟨show_system st "Select a model first", false, false⟩
    | some model =>
      let st1 := { st with
        chat_sessions := updateFirst st.chat_sessions st.current_session_id
          (fun s => { s with messages := s.messages ++ [⟨"user", user_text⟩] }) }
      let st2 := render_message st1 "user" user_text false
      let st3 := { st2 with input_box := "" }
      let stopOld := st3.ollama_worker.isSome
      let st4 := { st3 with
        ollama_worker := some ⟨model, st.current_session_id, true⟩ }
      ⟨st4, true, stopOld⟩

/-- The `on_full` slot of `send_message` (lines 399-411), run when the
worker emits `full_response`.  `orig_sid` is the session the closure
captured at send time.  Line 409 appends the assistant message to THAT
session; line 410 calls `_render_message("assistant", ...)`, which appends
it once more — to whichever session is current at delivery time; line 411
clears the worker slot. -/
def on_full (orig_sid : String) (full_text : String) (st : AppState) :
    AppState :=
  let st1 := { st with
    chat_sessions := updateFirst st.chat_sessions orig_sid
      (fun s => { s with messages := s.messages ++ [⟨"assistant", full_text⟩] }) }
  let st2 := render_message st1 "assistant" full_text false
  { st2 with ollama_worker := none }

/-- The `error_occurred` slot (line 397):
`lambda e: self._show_system(f"AI Error: {e}")`. -/
def on_error (st : AppState) (e : String) : AppState :=
  show_system st ("AI Error: " ++ e)

/-- `_on_chat_selected` (lines 255-263): switching the list selection only
moves the current-session pointer and re-renders the log with
`initial=True` (no log mutation); the worker slot is not touched. -/
def on_chat_selected (st : AppState) (cid : String) : AppState :=
  if cid = st.current_session_id then st
  else { st with current_session_id := cid }

/-- `start_new_chat` (lines 237-246): a fresh session is inserted at the
head and becomes current; when not `initial`, the greeting is rendered
NOT-initial, so it is appended to the new session's log. -/
def start_new_chat (cid : String) (initial : Bool) (st : AppState) :
    AppState :=
  let st1 := { st with
    chat_sessions := ⟨cid, "New Chat", []⟩ :: st.chat_sessions
    current_session_id := cid }
  if initial then st1
  else render_message st1 "assistant" "Hello! How can I help you?" false

/-!
Part 4: spec-side definitions, used only to compare the worker against the
specification's description of the Stream Client (a refinement check).
-/

/-- Modelled from the spec (§4.2 Stream Client): the sequence of textual
content deltas of a line sequence — skip empty and malformed lines, take
the `content` of every record shaped as `{message:{content}}`, and stop
at (and including) the first record with `done = true`. -/
def specDeltas : List StreamLine → List String
  | [] => []
  | .empty :: rest => specDeltas rest
  | .malformed :: rest => specDeltas rest
  | .record r :: rest =>
    (match r.message with
      | some (some c) => [c]
      | _ => []) ++ (if r.done then [] else specDeltas rest)

/-- Concatenation of a list of strings in order. -/
def joinAll : List String → String
  | [] => ""
  | s :: rest => s ++ joinAll rest

/-!
Part 3: document ingestion (`load_file`, lines 454-486).  The dispatch is
on the lower-cased file extension.  The `.docx` branch contains the slip
`content = "\n".join` — the bound `str.join` method is assigned WITHOUT
being called, so `content` is not a string; the later
`insertPlainText(content)` then raises, the `except` catches it, and a
"File read error" bubble is shown instead of any insertion.
-/

/-- The value the `.docx` branch leaves in `content`: not a string but the
unapplied bound method `"\n".join` (line 470). -/
inductive PyVal where
  | str : String → PyVal
  | joinMethod : String → PyVal
deriving DecidableEq, Repr

/-- `QTextEdit.insertPlainText` on the accumulated `content` value
(line 484): succeeds on a string, raises `TypeError` on anything else. -/
def insertPlainText : PyVal → Except String String
  | .str s => .ok s
  | .joinMethod _ => .error "TypeError"

/-- The selected file, pre-classified by its lower-cased extension.  A pdf
page is `none` when `extract_text()` raises, `some none` when it returns
`None`, and `some (some s)` when it returns text `s`. -/
inductive FileKind where
  | txtFile : String → FileKind
  | docxFile : List String → FileKind
  | pdfFile : List (Option (Option String)) → FileKind
  | otherFile : String → FileKind
deriving DecidableEq, Repr

/-- Outcome of `load_file`: text inserted into the compose box, or the
operation aborted with a `_show_system` bubble and nothing inserted. -/
inductive LoadResult where
  | inserted : String → LoadResult
  | aborted : String → LoadResult
deriving DecidableEq, Repr

/-- The pdf loop (lines 476-480):
`content += (p.extract_text() or "") + "\n"`, with a raising page skipped
by the inner `except ... continue`. -/
def pdfText : List (Option (Option String)) → String
  | [] => ""
  | none :: rest => pdfText rest
  | some t :: rest => (t.getD "") ++ "\n" ++ pdfText rest

/-- The tail of every non-aborting branch (line 484 inside the outer
`try`): insert `content`; a raised exception lands in the outer `except`
as a "File read error" bubble (line 486). -/
def finishInsert (v : PyVal) : LoadResult :=
  match insertPlainText v with
  | .ok s => .inserted s
  | .error e => .aborted ("File read error: " ++ e)

/-- `load_file` (lines 454-486).  `.txt`: file contents as `content`;
`.docx`: abort when the `docx` module is missing, else `content` becomes
the unapplied `"\n".join` method (the paragraphs are never consumed);
`.pdf`: abort when `PyPDF2` is missing, else per-page extraction with
failing pages skipped; any other extension: "Unsupported" bubble and
return before any insertion. -/
def load_file (docx_available pdf_available : Bool) : FileKind → LoadResult
  | .txtFile c => finishInsert (.str c)
  | .docxFile _ =>
    if docx_available then finishInsert (.joinMethod "\n")
    else .aborted "python-docx not installed"
  | .pdfFile pages =>
    if pdf_available then finishInsert (.str (pdfText pages))
    else .aborted "PyPDF2 not installed"
  | .otherFile ext => .aborted ("Unsupported: " ++ ext)

/-!
Helper lemmas shared by the claim theorems.
-/

theorem userCount_append_user (l : List Message) (t : String) :
    userCount (l ++ [⟨"user", t⟩]) = userCount l + 1 := by
  simp [userCount, List.filter_append, List.filter]

theorem userCount_append_role (l : List Message) (role t : String)
    (h : role ≠ "user") :
    userCount (l ++ [⟨role, t⟩]) = userCount l := by
  simp [userCount, List.filter_append, List.filter, h]

theorem updateFirst_updateFirst (l : List Session) (sid : String)
    (f g : Session → Session) (hf : ∀ s, (f s).sid = s.sid) :
    updateFirst (updateFirst l sid f) sid g =
      updateFirst l sid (fun s => g (f s)) := by
  induction l with
  | nil => rfl
  | cons s rest ih =>
    by_cases h : s.sid = sid
    · simp [updateFirst, h, hf]
    · simp [updateFirst, h, ih]

theorem updateFirst_congr (l : List Session) (sid : String)
    (f g : Session → Session) (h : ∀ s, f s = g s) :
    updateFirst l sid f = updateFirst l sid g := by
  have : f = g := funext h
  rw [this]

theorem updateFirst_split (pre post : List Session) (s : Session)
    (sid : String) (f : Session → Session)
    (hpre : ∀ s' ∈ pre, s'.sid ≠ sid) (hs : s.sid = sid) :
    updateFirst (pre ++ s :: post) sid f = pre ++ f s :: post := by
  induction pre with
  | nil => simp [updateFirst, hs]
  | cons p rest ih =>
    have hp : p.sid ≠ sid := hpre p (by simp)
    simp [updateFirst, hp, ih (fun s' h => hpre s' (by simp [h]))]

theorem updateFirst_map_title (l : List Session) (sid : String)
    (f : Session → Session) (hf : ∀ s, (f s).title = s.title) :
    (updateFirst l sid f).map Session.title = l.map Session.title := by
  induction l with
  | nil => rfl
  | cons s rest ih =>
    by_cases h : s.sid = sid
    · simp [updateFirst, h, hf]
    · simp [updateFirst, h, ih]

theorem runLoop_none_eq (lines : List StreamLine) :
    ∀ (i : Nat) (st : LoopState),
      (runLoop none i lines st).full = st.full ++ joinAll (specDeltas lines) ∧
      (runLoop none i lines st).chunks =
        st.chunks ++ (specDeltas lines).filter (fun c => !(c == "")) := by
  induction lines with
  | nil => intro i st; simp [runLoop, specDeltas, joinAll]
  | cons l rest ih =>
    intro i st
    cases l with
    | empty => simpa [runLoop, specDeltas, stopCheck] using ih (i + 1) st
    | malformed => simpa [runLoop, specDeltas, stopCheck] using ih (i + 1) st
    | record r =>
      rcases r with ⟨msg, done⟩
      match msg with
      | some (some c) =>
        by_cases hc : c = ""
        · subst hc
          cases done with
          | true =>
            simp [runLoop, specDeltas, stopCheck, recDelta, joinAll]
          | false =>
            simpa [runLoop, specDeltas, stopCheck, recDelta, joinAll]
              using ih (i + 1) st
        · cases done with
          | true =>
            simp [runLoop, specDeltas, stopCheck, recDelta, hc, joinAll,
              String.append_assoc]
          | false =>
            have h := ih (i + 1)
              ⟨st.full ++ c, st.chunks ++ [c], st.broke⟩
            simp [runLoop, specDeltas, stopCheck, recDelta, hc, joinAll] at h ⊢
            simp [h.1, h.2, String.append_assoc]
      | some none =>
        cases done with
        | true => simp [runLoop, specDeltas, stopCheck, recDelta, joinAll]
        | false =>
          simpa [runLoop, specDeltas, stopCheck, recDelta, joinAll]
            using ih (i + 1) st
      | none =>
        cases done with
        | true => simp [runLoop, specDeltas, stopCheck, recDelta, joinAll]
        | false =>
          simpa [runLoop, specDeltas, stopCheck, recDelta, joinAll]
            using ih (i + 1) st

theorem joinAll_filter_empty (l : List String) :
    joinAll (l.filter (fun c => !(c == ""))) = joinAll l := by
  induction l with
  | nil => rfl
  | cons s rest ih =>
    by_cases hs : s = ""
    · subst hs; simpa [joinAll, String.empty_append] using ih
    · simp [joinAll, hs, ih]

/-- C6: for every input line sequence the worker loop parses record lines,
skips empty and malformed lines without aborting, emits the content of the
`{message:{content}}`-shaped records up to and including the first
`done = true` record, and its accumulated result equals the concatenation
of the extracted deltas (records with an empty content string are emitted
by no chunk, which leaves the concatenation unchanged). -/
theorem stream_parse_refines_spec (lines : List StreamLine) :
    (runWorker none (.ok lines)).full_emitted =
      some (joinAll (specDeltas lines)) ∧
    (runWorker none (.ok lines)).chunks =
      (specDeltas lines).filter (fun c => !(c == "")) ∧
    joinAll ((specDeltas lines).filter (fun c => !(c == ""))) =
      joinAll (specDeltas lines) := by
  have h := runLoop_none_eq lines 0 ⟨"", [], false⟩
  refine ⟨?_, ?_, joinAll_filter_empty _⟩
  · simpa [runWorker, String.empty_append] using congrArg some h.1
  · simpa [runWorker] using h.2

/-- C10: a record carrying both a non-empty `message.content` and
`done = true` has its content appended to the accumulator and emitted as a
chunk before the loop breaks (the rest of the input is ignored), while a
well-formed record whose content is the empty string contributes nothing:
no chunk is emitted and the accumulator is unchanged. -/
theorem done_record_content_counted_empty_skipped (c : String)
    (hc : c ≠ "") :
    (∀ (i : Nat) (rest : List StreamLine) (st : LoopState),
      runLoop none i (.record ⟨some (some c), true⟩ :: rest) st =
        ⟨st.full ++ c, st.chunks ++ [c], true⟩) ∧
    (∀ (i : Nat) (rest : List StreamLine) (st : LoopState),
      runLoop none i (.record ⟨some (some ""), false⟩ :: rest) st =
        runLoop none (i + 1) rest st) := by
  constructor
  · intro i rest st
    simp [runLoop, stopCheck, recDelta, hc]
  · intro i rest st
    simp [runLoop, stopCheck, recDelta]

theorem done_record_content_counted_empty_skipped_witness :
    runLoop none 0 [.record ⟨some (some "Hi"), true⟩] ⟨"", [], false⟩ =
      ⟨"Hi", ["Hi"], true⟩ ∧
    runLoop none 0 [.record ⟨some (some ""), false⟩, .empty] ⟨"", [], false⟩ =
      runLoop none 1 [.empty] ⟨"", [], false⟩ := by
  have h := done_record_content_counted_empty_skipped "Hi" (by decide)
  exact ⟨by simpa [String.empty_append] using h.1 0 [] ⟨"", [], false⟩,
    h.2 0 [.empty] ⟨"", [], false⟩⟩

/-- C9: a send with input that strips to the empty string returns before
touching anything: no message appended, no worker started, no
notification; a send with non-empty input but no selected model shows the
"Select a model first" notification and changes nothing else, starting no
worker. -/
theorem send_guards_leave_state_unchanged (st : AppState) :
    (pyStrip st.input_box = "" → send_message st = ⟨st, false, false⟩) ∧
    (pyStrip st.input_box ≠ "" → st.current_model = none →
      send_message st =
        ⟨{ st with
            system_notes := st.system_notes ++ ["Select a model first"] },
          false, false⟩) := by
  constructor
  · intro h; simp [send_message, h]
  · intro h hm; simp [send_message, h, hm, show_system]

theorem send_guards_leave_state_unchanged_witness :
    send_message ⟨[⟨"s1", "New Chat", []⟩], "s1", none, none, "   ", []⟩ =
      ⟨⟨[⟨"s1", "New Chat", []⟩], "s1", none, none, "   ", []⟩,
        false, false⟩ ∧
    send_message ⟨[⟨"s1", "New Chat", []⟩], "s1", none, none, " hi ", []⟩ =
      ⟨⟨[⟨"s1", "New Chat", []⟩], "s1", none, none, " hi ",
          ["Select a model first"]⟩, false, false⟩ := by
  constructor
  · exact (send_guards_leave_state_unchanged _).1 (by decide)
  · exact (send_guards_leave_state_unchanged _).2 (by decide) rfl

theorem send_message_eq (st : AppState) (m : String)
    (hm : st.current_model = some m) (ht : ¬ pyStrip st.input_box = "") :
    send_message st =
      ⟨{ st with
          chat_sessions := updateFirst st.chat_sessions st.current_session_id
            (fun s => { s with
              messages := s.messages ++
                [⟨"user", pyStrip st.input_box⟩,
                 ⟨"user", pyStrip st.input_box⟩] }),
          input_box := "",
          ollama_worker := some ⟨m, st.current_session_id, true⟩ },
        true, st.ollama_worker.isSome⟩ := by
  simp only [send_message, if_neg ht, hm, render_message, if_neg (by simp :
    ¬ (false : Bool) = true)]
  rw [updateFirst_updateFirst st.chat_sessions st.current_session_id
    (fun s => { s with
      messages := s.messages ++ [⟨"user", pyStrip st.input_box⟩] })
    _ (fun s => rfl)]
  congr 2
  apply updateFirst_congr
  intro s
  simp [userCount_append_user, List.append_assoc]
  intro h
  simp [userCount, List.filter_append, List.filter] at h

theorem on_full_eq (st : AppState) (f : String) :
    on_full st.current_session_id f st =
      { st with
        chat_sessions := updateFirst st.chat_sessions st.current_session_id
          (fun s => { s with
            messages := s.messages ++
              [⟨"assistant", f⟩, ⟨"assistant", f⟩] }),
        ollama_worker := none } := by
  simp only [on_full, render_message, if_neg (by simp :
    ¬ (false : Bool) = true)]
  rw [updateFirst_updateFirst st.chat_sessions st.current_session_id
    (fun s => { s with messages := s.messages ++ [⟨"assistant", f⟩] })
    _ (fun s => rfl)]
  congr 1
  apply updateFirst_congr
  intro s
  simp [List.append_assoc]

set_option maxRecDepth 8000

/-- C5: contrary to the claim, a send with non-empty stripped text and a
selected model appends the user message TWICE to the session's log before
the stream request is issued — once by the explicit append of line 363 and
once more inside `_render_message` (line 278). -/
theorem send_appends_user_message_twice (st : AppState) (m : String)
    (pre post : List Session) (s : Session)
    (hm : st.current_model = some m) (ht : ¬ pyStrip st.input_box = "")
    (hsplit : st.chat_sessions = pre ++ s :: post)
    (hpre : ∀ s' ∈ pre, s'.sid ≠ st.current_session_id)
    (hs : s.sid = st.current_session_id) :
    (send_message st).state.chat_sessions =
      pre ++ { s with messages := s.messages ++
          [⟨"user", pyStrip st.input_box⟩,
           ⟨"user", pyStrip st.input_box⟩] } :: post := by
  rw [send_message_eq st m hm ht]
  simp only
  rw [hsplit, updateFirst_split pre post s _ _ hpre hs]

theorem send_appends_user_message_twice_witness :
    (send_message ⟨[⟨"s1", "New Chat", []⟩], "s1", some "X", none,
        "Hello", []⟩).state.chat_sessions =
      [⟨"s1", "New Chat", [⟨"user", "Hello"⟩, ⟨"user", "Hello"⟩]⟩] := by
  have h := send_appends_user_message_twice
    ⟨[⟨"s1", "New Chat", []⟩], "s1", some "X", none, "Hello", []⟩ "X"
    [] [] ⟨"s1", "New Chat", []⟩ rfl (by decide) rfl (by simp) rfl
  rw [show pyStrip "Hello" = "Hello" from by decide] at h
  simpa using h

/-- C4: contrary to the claim, no session title is ever set by a send.
The title expression of line 280 (`deriveTitle`) does implement the
claimed rule — unchanged 10-character text, 30-character prefix plus
`"..."` for a 45-character text — but it is dead code: because
`send_message` appends the user message twice before the check, the
"first user message" count is already 2 when `_render_message` tests it,
so every send leaves every title exactly as it was (the concrete first
send below leaves the title "New Chat"). -/
theorem title_never_set_by_send :
    (∀ st : AppState,
      ((send_message st).state.chat_sessions).map Session.title =
        st.chat_sessions.map Session.title) ∧
    deriveTitle "short text" = "short text" ∧
    deriveTitle "abcdefghijklmnopqrstuvwxyz0123456789ABCDEFGHI" =
      "abcdefghijklmnopqrstuvwxyz0123" ++ "..." ∧
    ("abcdefghijklmnopqrstuvwxyz0123456789ABCDEFGHI" : String).length = 45 ∧
    (send_message ⟨[⟨"s1", "New Chat", []⟩], "s1", some "X", none,
        "short text", []⟩).state.chat_sessions.map Session.title =
      ["New Chat"] := by
  refine ⟨?_, by decide, by decide, by decide, by decide⟩
  intro st
  by_cases ht : pyStrip st.input_box = ""
  · simp [send_message, ht]
  · match hm : st.current_model with
    | none => simp [send_message, ht, hm, show_system]
    | some m =>
      rw [send_message_eq st m hm ht]
      simp only
      exact updateFirst_map_title _ _ _ (fun s => rfl)

/-- C2: a stream terminated by a `done` record yields a full response
equal to the concatenation of its deltas, as claimed — but its delivery
appends the assistant message TWICE (the explicit append of line 409 plus
the one inside `_render_message`, line 410), not exactly once: the claimed
scenario commits the assistant message "Hi there" two times (after the
user message "Hello" was itself double-appended by the send). -/
theorem done_stream_commits_assistant_twice :
    runWorker none (.ok
      [ .record ⟨some (some "Hi"), false⟩,
        .record ⟨some (some " there"), false⟩,
        .record ⟨none, true⟩ ]) =
      ⟨["Hi", " there"], some "Hi there", false⟩ ∧
    (on_full "s1" "Hi there"
      (send_message ⟨[⟨"s1", "New Chat", []⟩], "s1", some "X", none,
          "Hello", []⟩).state).chat_sessions =
      [⟨"s1", "New Chat",
        [⟨"user", "Hello"⟩, ⟨"user", "Hello"⟩,
         ⟨"assistant", "Hi there"⟩, ⟨"assistant", "Hi there"⟩]⟩] := by
  constructor <;> decide

/-- C8: document ingestion dispatches on the extension as claimed for
`.txt` (passthrough), `.pdf` (per-page extraction, a raising page
skipped, a `None` page contributing only its newline) and unsupported
extensions (user-visible message, no insertion) — but the `.docx` branch
is broken: line 470 assigns the bound method `"\n".join` WITHOUT calling
it, so the paragraph texts are never joined and the later insertion
raises, aborting with a "File read error" bubble instead of inserting the
paragraphs. -/
theorem load_file_dispatch_docx_broken :
    load_file true true (.txtFile "hello world") = .inserted "hello world" ∧
    load_file true true
        (.pdfFile [some (some "p1"), none, some (some "p3")]) =
      .inserted "p1\np3\n" ∧
    load_file true true (.pdfFile [some none]) = .inserted "\n" ∧
    load_file true true (.otherFile ".csv") =
      .aborted "Unsupported: .csv" ∧
    load_file false true (.docxFile ["a", "b"]) =
      .aborted "python-docx not installed" ∧
    load_file true false (.pdfFile [some (some "p")]) =
      .aborted "PyPDF2 not installed" ∧
    load_file true true (.docxFile ["a", "b"]) =
      .aborted "File read error: TypeError" := by
  refine ⟨rfl, by decide, by decide, by decide, rfl, rfl, rfl⟩

/-- C1 counterexample: a cancelled stream commits assistant messages, not
zero.  The worker below is stopped at line index 1, having accumulated
only the partial text "Hi" of the full reply "Hi there"; it nevertheless
emits a `full_response` carrying "Hi" (line 74 runs after the `break`),
and delivering that response appends "Hi" to the session log — twice. -/
theorem cancelled_stream_commits_partial_cex :
    (runWorker (some 1) (.ok
      [ .record ⟨some (some "Hi"), false⟩,
        .record ⟨some (some " there"), false⟩,
        .record ⟨none, true⟩ ])).full_emitted = some "Hi" ∧
    (on_full "s1" "Hi"
        ⟨[⟨"s1", "T", []⟩], "s1", some "X", none, "", []⟩).chat_sessions =
      [⟨"s1", "T", [⟨"assistant", "Hi"⟩, ⟨"assistant", "Hi"⟩]⟩] := by
  constructor <;> decide

/-- C1 amended: a stream that ends errored commits zero assistant
messages — `full_response` is never emitted on that path, the accumulated
partial text is discarded, and the error is surfaced as an "AI Error"
system notification that leaves every session log unchanged.  A cancelled
(stopped) stream, by contrast, always emits its accumulated partial text
as a full response, and delivering that response appends it (twice) as
assistant messages to the session log. -/
theorem errored_commits_nothing_cancelled_commits_partial :
    (∀ (stopAt : Option Nat) (inp : StreamInput) (st : AppState)
        (e : String),
      (runWorker stopAt inp).error_emitted = true →
        (runWorker stopAt inp).full_emitted = none ∧
        (on_error st e).chat_sessions = st.chat_sessions ∧
        (on_error st e).system_notes =
          st.system_notes ++ ["AI Error: " ++ e]) ∧
    (∀ (stopAt : Option Nat) (lines : List StreamLine),
      (runWorker stopAt (.ok lines)).full_emitted =
        some (runLoop stopAt 0 lines ⟨"", [], false⟩).full) ∧
    (∀ (st : AppState) (f : String) (pre post : List Session) (s : Session),
      st.chat_sessions = pre ++ s :: post →
      (∀ s' ∈ pre, s'.sid ≠ st.current_session_id) →
      s.sid = st.current_session_id →
      (on_full st.current_session_id f st).chat_sessions =
        pre ++ { s with messages := s.messages ++
            [⟨"assistant", f⟩, ⟨"assistant", f⟩] } :: post) := by
  refine ⟨?_, fun stopAt lines => rfl, ?_⟩
  · intro stopAt inp st e herr
    cases inp with
    | ok lines => simp [runWorker] at herr
    | err lines =>
      by_cases hb : (runLoop stopAt 0 lines ⟨"", [], false⟩).broke
      · simp [runWorker, hb] at herr
      · simp [runWorker, hb, on_error, show_system]
  · intro st f pre post s hsplit hpre hs
    rw [on_full_eq st f]
    simp only
    rw [hsplit, updateFirst_split pre post s _ _ hpre hs]

theorem errored_commits_nothing_cancelled_commits_partial_witness :
    ((runWorker none
        (.err [.record ⟨some (some "Hi"), false⟩])).full_emitted = none ∧
      (on_error ⟨[⟨"s1", "T", []⟩], "s1", some "X", none, "", []⟩
          "boom").chat_sessions = [⟨"s1", "T", []⟩] ∧
      (on_error ⟨[⟨"s1", "T", []⟩], "s1", some "X", none, "", []⟩
          "boom").system_notes = ["AI Error: boom"]) ∧
    (on_full "s1" "Hi"
        ⟨[⟨"s1", "T", []⟩], "s1", some "X", none, "", []⟩).chat_sessions =
      [⟨"s1", "T", [⟨"assistant", "Hi"⟩, ⟨"assistant", "Hi"⟩]⟩] := by
  have h := errored_commits_nothing_cancelled_commits_partial
  refine ⟨?_, ?_⟩
  · have h1 := h.1 none (.err [.record ⟨some (some "Hi"), false⟩])
      ⟨[⟨"s1", "T", []⟩], "s1", some "X", none, "", []⟩ "boom" (by decide)
    exact ⟨h1.1, h1.2.1, by simpa using h1.2.2⟩
  · have h2 := h.2.2 ⟨[⟨"s1", "T", []⟩], "s1", some "X", none, "", []⟩
      "Hi" [] [] ⟨"s1", "T", []⟩ rfl (by simp) rfl
    simpa using h2

/-- C3 counterexample: sending message B while stream A is active does
signal A to stop before B's worker starts (`old_stop_signalled = true`),
but an assistant message from the superseded stream A IS committed: A,
stopped at line index 1 with the partial text "Hi", still emits a full
response, and its delivery appends "Hi" (twice) to the session log —
refuting "no assistant message from the superseded stream is ever
committed". -/
theorem superseded_stream_commits_cex :
    (send_message ⟨[⟨"s1", "T", [⟨"user", "A"⟩, ⟨"user", "A"⟩]⟩], "s1",
        some "X", some ⟨"X", "s1", true⟩, "B", []⟩).old_stop_signalled =
      true ∧
    (runWorker (some 1) (.ok
      [ .record ⟨some (some "Hi"), false⟩,
        .record ⟨none, true⟩ ])).full_emitted = some "Hi" ∧
    (on_full "s1" "Hi"
      (send_message ⟨[⟨"s1", "T", [⟨"user", "A"⟩, ⟨"user", "A"⟩]⟩], "s1",
          some "X", some ⟨"X", "s1", true⟩, "B", []⟩).state).chat_sessions =
      [⟨"s1", "T",
        [⟨"user", "A"⟩, ⟨"user", "A"⟩, ⟨"user", "B"⟩, ⟨"user", "B"⟩,
         ⟨"assistant", "Hi"⟩, ⟨"assistant", "Hi"⟩]⟩] := by
  refine ⟨by decide, by decide, by decide⟩

/-- C3 amended: the app holds a single worker slot, and a send with
non-empty stripped text and a selected model signals the existing worker
(when present) to stop before creating and starting the fresh worker for
the current session — but the superseded worker still emits a full
response carrying whatever partial text it had accumulated (its
`full_response` is emitted for every stop point), so an assistant message
from the superseded stream can still be committed on delivery. -/
theorem supersede_stops_old_but_old_still_commits (st : AppState)
    (m : String) (hm : st.current_model = some m)
    (ht : ¬ pyStrip st.input_box = "")
    (hw : st.ollama_worker.isSome = true) :
    ((send_message st).old_stop_signalled = true ∧
     (send_message st).worker_started = true ∧
     (send_message st).state.ollama_worker =
       some ⟨m, st.current_session_id, true⟩) ∧
    (∀ (stopAt : Option Nat) (lines : List StreamLine),
      (runWorker stopAt (.ok lines)).full_emitted =
        some (runLoop stopAt 0 lines ⟨"", [], false⟩).full) := by
  rw [send_message_eq st m hm ht]
  exact ⟨⟨hw, rfl, rfl⟩, fun stopAt lines => rfl⟩

theorem supersede_stops_old_but_old_still_commits_witness :
    ((send_message ⟨[⟨"s1", "T", []⟩], "s1", some "X",
        some ⟨"X", "s1", true⟩, "B", []⟩).old_stop_signalled = true ∧
     (send_message ⟨[⟨"s1", "T", []⟩], "s1", some "X",
        some ⟨"X", "s1", true⟩, "B", []⟩).worker_started = true ∧
     (send_message ⟨[⟨"s1", "T", []⟩], "s1", some "X",
        some ⟨"X", "s1", true⟩, "B", []⟩).state.ollama_worker =
       some ⟨"X", "s1", true⟩) ∧
    (∀ (stopAt : Option Nat) (lines : List StreamLine),
      (runWorker stopAt (.ok lines)).full_emitted =
        some (runLoop stopAt 0 lines ⟨"", [], false⟩).full) :=
  supersede_stops_old_but_old_still_commits
    ⟨[⟨"s1", "T", []⟩], "s1", some "X", some ⟨"X", "s1", true⟩, "B", []⟩
    "X" rfl (by decide) rfl

/-- C7 counterexample: switching to a different session while a stream is
active leaves the worker slot completely untouched — `_on_chat_selected`
contains no stop call, so the worker is still referenced with its running
flag true, and nothing transitions to a cancelled state. -/
theorem session_switch_leaves_stream_running_cex :
    (on_chat_selected ⟨[⟨"s1", "T", []⟩, ⟨"s2", "U", []⟩], "s1", some "X",
        some ⟨"X", "s1", true⟩, "", []⟩ "s2").ollama_worker =
      some ⟨"X", "s1", true⟩ ∧
    (on_chat_selected ⟨[⟨"s1", "T", []⟩, ⟨"s2", "U", []⟩], "s1", some "X",
        some ⟨"X", "s1", true⟩, "", []⟩ "s2").current_session_id = "s2" := by
  constructor <;> decide

/-- C7 amended: switching the chat selection changes only the
current-session pointer (and only when a different session is chosen);
the active stream is NOT signalled to stop — the worker slot and its
running flag are unchanged — and no content is committed by the switch:
every session log, the compose box and the notification list stay exactly
as they were. -/
theorem session_switch_only_moves_pointer (st : AppState) (cid : String) :
    (on_chat_selected st cid).ollama_worker = st.ollama_worker ∧
    (on_chat_selected st cid).chat_sessions = st.chat_sessions ∧
    (on_chat_selected st cid).input_box = st.input_box ∧
    (on_chat_selected st cid).system_notes = st.system_notes ∧
    (on_chat_selected st cid).current_session_id =
      (if cid = st.current_session_id then st.current_session_id
       else cid) := by
  unfold on_chat_selected
  by_cases h : cid = st.current_session_id <;> simp [h]
